import Mathlib

/-!
# Verification of the llm-utils chat client

A shallow embedding of `src/openai_chatbot.py` (class `OpenAIChatbot`) and the
theorems settling the specification's claims about it.

Modelling conventions:
* A JSON value is the inductive `J`.  The Python `json` standard library
  (`json.load` / `json.dump(..., ensure_ascii=False, indent=2)`) is an external
  dependency of the repository; it is modelled as transporting JSON values
  exactly, so a persisted file is represented by `Option (Except String J)`:
  `none` when the path does not exist, `some (.error m)` when the file exists
  but its text is not valid JSON (Python raises `json.JSONDecodeError`, whose
  message is `m`), and `some (.ok j)` when the text parses to the value `j`.
* A chat message dict `{"role": r, "content": c}` is the structure `Message`.
* Python truthiness of an optional string (`x or y`, `if s:`) is `pyTruthyStr`.
* A Python exception is `PyExn`; `str(e)` is `pyStr`.
* The remote client (`OpenAI(...)` and `client.chat.completions.create`) is an
  external service: `create` is passed as an oracle function from the request
  message list to the outcome, so a theorem can speak about which request was
  issued.  Console printing and file writing are likewise given failure
  oracles so that exceptions raised by them are modelled.
-/

/-- A JSON value, as produced by Python's `json.load`. -/
inductive J where
  | null : J
  | bool : Bool → J
  | num : Int → J
  | str : String → J
  | arr : List J → J
  | obj : List (String × J) → J

/-- A chat message: the dict `{"role": r, "content": c}`. -/
structure Message where
  role : String
  content : String
  deriving Repr, DecidableEq

/-- `{"role": "user", "content": m}` as appended by `chat`/`chat_stream`. -/
def userMsg (m : String) : Message := ⟨"user", m⟩

/-- `{"role": "assistant", "content": c}` as appended by `chat`/`chat_stream`. -/
def assistantMsg (c : String) : Message := ⟨"assistant", c⟩

/-- Encoding of one message as the JSON object `json.dump` writes for it. -/
def encodeMsg (m : Message) : J := J.obj [("role", J.str m.role), ("content", J.str m.content)]

/-- Encoding of the in-memory history as the JSON array `json.dump` writes:
`_save_history` serializes `self.chat_history` (a list of role/content dicts)
with `ensure_ascii=False`, which keeps every string, non-ASCII included,
verbatim in the JSON value. -/
def encodeHistory (l : List Message) : J := J.arr (l.map encodeMsg)

/-- Look up a key in a JSON object's field list (Python `d["k"]`). -/
def jLookup (k : String) : List (String × J) → Option J
  | [] => none
  | (k', v) :: rest => if k' = k then some v else jLookup k rest

/-- Read one JSON value back as a role/content message, if it has that shape. -/
def decodeMsg : J → Option Message
  | J.obj fields =>
    match jLookup "role" fields, jLookup "content" fields with
    | some (J.str r), some (J.str c) => some ⟨r, c⟩
    | _, _ => none
  | _ => none

/-- Read a JSON value back as a transcript: it must be an array each of whose
elements is a role/content object.  (The code itself performs no such
validation on load; this definition states what "parses as a list of
messages" means when comparing a loaded value with a transcript.) -/
def decodeHistory : J → Option (List Message)
  | J.arr xs => xs.mapM decodeMsg
  | _ => none

/-- Python truthiness of an optional string: `None` and `""` are falsy. -/
def pyTruthyStr : Option String → Bool
  | none => false
  | some s => !(s == "")

/-- `x or y` for optional strings, as in `api_key or os.getenv(...)`. -/
def pyOrOpt (a b : Option String) : Option String :=
  if pyTruthyStr a then a else b

/-- `x or ""` for an optional string, as in `response.choices[0].message.content or ""`. -/
def pyOrEmpty : Option String → String
  | none => ""
  | some s => if s == "" then "" else s

/-- A Python exception: either an arbitrary exception with its `str(e)`
message, or a `ConnectionError` (the type `handle_openai_errors` raises). -/
inductive PyExn where
  | exn : String → PyExn
  | connectionError : String → PyExn
  deriving Repr, DecidableEq

/-- `str(e)` of a Python exception. -/
def pyStr : PyExn → String
  | .exn m => m
  | .connectionError m => m

/-- Errors `OpenAIChatbot.__init__` can raise: `FileNotFoundError`,
`ValueError` (missing API key), `json.JSONDecodeError` from `_load_history`. -/
inductive InitErr where
  | fileNotFound : String → InitErr
  | missingKey : String → InitErr
  | parseError : String → InitErr
  deriving Repr, DecidableEq

/-- Externally visible actions of `__init__`; creating the remote client
(`OpenAI(api_key=..., base_url=...)`) is the only one. -/
inductive ClientAction where
  | createClient : String → Option String → ClientAction
  deriving Repr, DecidableEq

/-- The fields `__init__` stores on a successfully constructed chatbot.
`chat_history` is the raw JSON value `_load_history` assigned — the code does
not validate its shape. -/
structure InitState where
  model_name : String
  history_file : String
  api_key : String
  chat_history : J

/-- `OpenAIChatbot.__init__`.  Arguments mirror the Python signature
(`system_prompt` defaults to `"You are a helpful assistant."` there);
`fileContent` stands for the file at `history_path` as described in the
module docstring, `envKey` for `os.getenv("OPENAI_API_KEY")`.  Steps, in
source order:
1. `if not history_file.exists(): raise FileNotFoundError(...)`;
2. `self.api_key = api_key or os.getenv("OPENAI_API_KEY")`, then
   `if self.api_key is None: raise ValueError(...)`;
3. `self.chat_history = [{'role': 'system', 'content': system_prompt}]`;
4. `self._load_history()`, which reassigns `self.chat_history = json.load(f)`
   (or propagates the decode error);
5. `self.client = OpenAI(api_key=self.api_key, base_url=base_url if base_url
   else None)` — recorded in the returned action trace. -/
def init (model_name : String) (history_path : String)
    (fileContent : Option (Except String J)) (system_prompt : String)
    (api_key : Option String) (envKey : Option String) (base_url : Option String) :
    List ClientAction × Except InitErr InitState :=
  match fileContent with
  | none => ([], .error (.fileNotFound ("History file not found: " ++ history_path)))
  | some fc =>
    match pyOrOpt api_key envKey with
    | none => ([], .error (.missingKey
        "API key must be provided either through parameter or OPENAI_API_KEY environment variable"))
    | some key =>
      let _hist0 : J := J.arr [encodeMsg ⟨"system", system_prompt⟩]
      match fc with
      | .error m => ([], .error (.parseError m))
      | .ok loaded =>
        ([ClientAction.createClient key (if pyTruthyStr base_url then base_url else none)],
         .ok { model_name := model_name, history_file := history_path,
               api_key := key, chat_history := loaded })

/-- What one call to `chat`/`chat_stream` leaves behind: the in-memory
`self.chat_history`, the JSON value written to the history file by
`_save_history` (`none` when `_save_history` was never reached, so the file
was not rewritten), and the returned reply or raised exception. -/
structure TurnOut where
  history : List Message
  persisted : Option J
  result : Except PyExn String

/-- `_save_history`: `json.dump(self.chat_history, f, ensure_ascii=False,
indent=2)` — the file now holds the encoding of the in-memory history. -/
def save_history (l : List Message) : J := encodeHistory l

/-- The non-streaming response: `response.choices[0].message.content`,
which may be absent (`None`). -/
structure NonStreamResp where
  content : Option String

/-- `handle_openai_errors` applied to a raised exception: `except Exception
as e: raise ConnectionError(f"Error communicating with OpenAI: {str(e)}")`. -/
def wrapExn (e : PyExn) : PyExn :=
  .connectionError ("Error communicating with OpenAI: " ++ pyStr e)

/-- `handle_openai_errors` on a call outcome: successes pass through, any
exception is re-raised as the wrapped `ConnectionError`. -/
def wrapResult : Except PyExn String → Except PyExn String
  | .error e => .error (wrapExn e)
  | .ok r => .ok r

/-- The `handle_openai_errors` decorator around a whole turn. -/
def wrapTurn (t : TurnOut) : TurnOut :=
  { t with result := wrapResult t.result }

/-- `OpenAIChatbot.chat` body (inside the decorator).  `create` is the remote
client's `chat.completions.create` with `stream=False`, applied to the
message list the code sends (a copy of the whole `self.chat_history` after
the user message was appended); `printFail` is the exception
`print(response_text)` raises, if any (`print` only runs when
`should_print`); `saveFail` is the exception `_save_history` raises, if any.
Source order: append user message; call `create`; read
`response.choices[0].message.content or ""`; optionally print; append
assistant message; save; return. -/
def chatRaw (hist : List Message) (message : String)
    (create : List Message → Except PyExn NonStreamResp)
    (should_print : Bool) (printFail : Option PyExn) (saveFail : Option PyExn) :
    TurnOut :=
  let h1 := hist ++ [userMsg message]
  match create h1 with
  | .error e => ⟨h1, none, .error e⟩
  | .ok resp =>
    let response_text := pyOrEmpty resp.content
    match (if should_print then printFail else none) with
    | some e => ⟨h1, none, .error e⟩
    | none =>
      let h2 := h1 ++ [assistantMsg response_text]
      match saveFail with
      | some e => ⟨h2, none, .error e⟩
      | none => ⟨h2, some (save_history h2), .ok response_text⟩

/-- `OpenAIChatbot.chat` = `handle_openai_errors` around the body. -/
def chat (hist : List Message) (message : String)
    (create : List Message → Except PyExn NonStreamResp)
    (should_print : Bool) (printFail : Option PyExn) (saveFail : Option PyExn) :
    TurnOut :=
  wrapTurn (chatRaw hist message create should_print printFail saveFail)

/-- The `for chunk in stream` loop of `chat_stream`.  A chunk is
`chunk.choices[0].delta.content : Option String`; a chunk passes the
truthiness test `if chunk.choices[0].delta.content:` only when it carries a
non-empty string, and then its text is appended to `full_response` and, when
`should_print`, printed (`printFails` holds one outcome per `print` call,
exhausted meaning success).  Returns the accumulated text and the remaining
print outcomes, or the first exception a `print` raised. -/
def streamLoop : List (Option String) → Bool → List (Option PyExn) → String →
    Except PyExn (String × List (Option PyExn))
  | [], _, pf, acc => .ok (acc, pf)
  | c :: rest, sp, pf, acc =>
    if pyTruthyStr c then
      let acc' := acc ++ pyOrEmpty c
      if sp then
        match pf with
        | some e :: _ => .error e
        | none :: pf' => streamLoop rest sp pf' acc'
        | [] => streamLoop rest sp [] acc'
      else streamLoop rest sp pf acc'
    else streamLoop rest sp pf acc

/-- `OpenAIChatbot.chat_stream` body (inside the decorator).  `create` is the
remote `chat.completions.create` with `stream=True`; a successful call yields
the list of chunks the stream delivers plus `some e` when the iteration
itself raises `e` after those chunks (a mid-stream transport failure).
Source order: append user message; create the stream; fold over the chunks
accumulating `full_response` (printing fragments as configured); after the
loop print a final newline when `should_print`; append the assistant message
with the full accumulated text; save; return. -/
def chat_streamRaw (hist : List Message) (message : String)
    (create : List Message → Except PyExn (List (Option String) × Option PyExn))
    (should_print : Bool) (printFails : List (Option PyExn)) (saveFail : Option PyExn) :
    TurnOut :=
  let h1 := hist ++ [userMsg message]
  match create h1 with
  | .error e => ⟨h1, none, .error e⟩
  | .ok (chunks, midErr) =>
    match streamLoop chunks should_print printFails "" with
    | .error e => ⟨h1, none, .error e⟩
    | .ok (full_response, pf') =>
      match midErr with
      | some e => ⟨h1, none, .error e⟩
      | none =>
        match (if should_print then pf'.headD none else none) with
        | some e => ⟨h1, none, .error e⟩
        | none =>
          let h2 := h1 ++ [assistantMsg full_response]
          match saveFail with
          | some e => ⟨h2, none, .error e⟩
          | none => ⟨h2, some (save_history h2), .ok full_response⟩

/-- `OpenAIChatbot.chat_stream` = `handle_openai_errors` around the body. -/
def chat_stream (hist : List Message) (message : String)
    (create : List Message → Except PyExn (List (Option String) × Option PyExn))
    (should_print : Bool) (printFails : List (Option PyExn)) (saveFail : Option PyExn) :
    TurnOut :=
  wrapTurn (chat_streamRaw hist message create should_print printFails saveFail)

/-- The concatenation, in arrival order, of the text fragments a chunk list
carries (the reply the specification describes for `chat_stream`). -/
def concatFragments : List (Option String) → String
  | [] => ""
  | none :: rest => concatFragments rest
  | some s :: rest => s ++ concatFragments rest

/-! ## Helper lemmas -/

/-- When every `print` succeeds (`printFails = []`), the chunk loop returns
the accumulator extended by the fragments in arrival order: skipping the
falsy chunks (`None` and `""`) does not change the concatenation. -/
theorem streamLoop_noPrintFail (chunks : List (Option String)) (sp : Bool) (acc : String) :
    streamLoop chunks sp [] acc = .ok (acc ++ concatFragments chunks, []) := by
  induction chunks generalizing acc with
  | nil => simp [streamLoop, concatFragments, String.append_empty]
  | cons c rest ih =>
    cases c with
    | none => simp [streamLoop, pyTruthyStr, concatFragments, ih]
    | some s =>
      by_cases hs : s = ""
      · subst hs
        simp [streamLoop, pyTruthyStr, concatFragments, ih, String.empty_append]
      · cases sp <;>
          simp [streamLoop, pyTruthyStr, hs, concatFragments, pyOrEmpty, ih,
            String.append_assoc]

/-- Decoding the encoding of one message recovers it. -/
theorem decodeMsg_encodeMsg (m : Message) : decodeMsg (encodeMsg m) = some m := rfl

/-- Decoding the encoding of a message list recovers the list. -/
theorem mapM_decodeMsg_encodeMsg (l : List Message) :
    (l.map encodeMsg).mapM decodeMsg = some l := by
  induction l with
  | nil => rfl
  | cons m rest ih =>
    rw [List.map_cons, List.mapM_cons, decodeMsg_encodeMsg, ih]
    rfl

/-- Any error escaping the `handle_openai_errors` decorator is a
`ConnectionError` whose message extends the fixed context text. -/
theorem wrapTurn_error (t : TurnOut) (e : PyExn)
    (h : (wrapTurn t).result = .error e) :
    ∃ m, e = .connectionError ("Error communicating with OpenAI: " ++ m) := by
  cases ht : t.result with
  | ok r => simp [wrapTurn, wrapResult, ht] at h
  | error e' =>
    refine ⟨pyStr e', ?_⟩
    simp [wrapTurn, wrapResult, wrapExn, ht] at h
    exact h.symm

/-! ## Claim theorems -/

/-- Claim C1 (code bug evaluation): constructing over a file whose persisted
transcript is the empty list `[]`, with system prompt "Custom system prompt"
and API key "test_key", succeeds with an in-memory transcript equal to the
empty JSON array — i.e. the empty message list — and not to a single system
message carrying the configured prompt.  `__init__` first seeds
`self.chat_history` with the system message (line 35) but `_load_history`
then reassigns `self.chat_history = json.load(f)` unconditionally (line 99),
so the seeded system message is discarded; the repository's own test
`test_system_prompt_with_empty_history` asserts the behaviour the claim
states and fails against this code. -/
theorem claim1_empty_history_bug :
    init "gpt-3.5-turbo" "empty_history.json" (some (.ok (J.arr [])))
        "Custom system prompt" (some "test_key") none none
      = ([ClientAction.createClient "test_key" none],
         .ok ⟨"gpt-3.5-turbo", "empty_history.json", "test_key", J.arr []⟩)
    ∧ decodeHistory (J.arr []) = some ([] : List Message) :=
  ⟨rfl, rfl⟩

/-- Claim C2: whenever the remote call raises — at `create` in `chat`, at
`create` in `chat_stream`, or mid-stream while iterating the chunks — the
turn fails with a `ConnectionError` whose message carries the original
error's message as context, the transcript holds exactly the old history
plus the user message (no partial assistant entry), and the history file is
not rewritten.  The remote oracle is consulted exactly once per turn, so no
retry occurs. -/
theorem claim2_remote_failure (hist : List Message) (message : String) (e : PyExn)
    (sp : Bool) (pf sf : Option PyExn) (pfs : List (Option PyExn)) :
    (∀ create : List Message → Except PyExn NonStreamResp,
      create (hist ++ [userMsg message]) = .error e →
      chat hist message create sp pf sf =
        ⟨hist ++ [userMsg message], none,
         .error (.connectionError ("Error communicating with OpenAI: " ++ pyStr e))⟩)
    ∧ (∀ create : List Message → Except PyExn (List (Option String) × Option PyExn),
      create (hist ++ [userMsg message]) = .error e →
      chat_stream hist message create sp pfs sf =
        ⟨hist ++ [userMsg message], none,
         .error (.connectionError ("Error communicating with OpenAI: " ++ pyStr e))⟩)
    ∧ (∀ (create : List Message → Except PyExn (List (Option String) × Option PyExn))
        (chunks : List (Option String)),
      create (hist ++ [userMsg message]) = .ok (chunks, some e) →
      chat_stream hist message create sp [] sf =
        ⟨hist ++ [userMsg message], none,
         .error (.connectionError ("Error communicating with OpenAI: " ++ pyStr e))⟩) := by
  refine ⟨fun create h => ?_, fun create h => ?_, fun create chunks h => ?_⟩
  · simp [chat, chatRaw, h, wrapTurn, wrapResult, wrapExn]
  · simp [chat_stream, chat_streamRaw, h, wrapTurn, wrapResult, wrapExn]
  · simp [chat_stream, chat_streamRaw, h, streamLoop_noPrintFail, wrapTurn,
      wrapResult, wrapExn]

/-- Witness for C2 at a concrete failing run of `chat`. -/
theorem claim2_remote_failure_witness :
    chat [] "Test message" (fun _ => .error (.exn "API Error")) false none none =
      ⟨[userMsg "Test message"], none,
       .error (.connectionError
         ("Error communicating with OpenAI: " ++ pyStr (.exn "API Error")))⟩ :=
  (claim2_remote_failure [] "Test message" (.exn "API Error") false none none []).1
    (fun _ => .error (.exn "API Error")) rfl

/-- Claim C3: a successful `chat message` appends `{user, message}` then
`{assistant, reply}` where `reply` is the first choice's message content or
`""` when absent (`pyOrEmpty`), issues the single non-streaming request over
the whole transcript including the new user message (visible as the argument
`create` is applied to), persists the full transcript, and returns `reply`. -/
theorem claim3_chat_success (hist : List Message) (message : String)
    (create : List Message → Except PyExn NonStreamResp) (resp : NonStreamResp)
    (sp : Bool) (h : create (hist ++ [userMsg message]) = .ok resp) :
    chat hist message create sp none none =
      ⟨hist ++ [userMsg message, assistantMsg (pyOrEmpty resp.content)],
       some (save_history
         (hist ++ [userMsg message, assistantMsg (pyOrEmpty resp.content)])),
       .ok (pyOrEmpty resp.content)⟩ := by
  simp [chat, chatRaw, h, wrapTurn, wrapResult]

/-- Witness for C3 at a concrete successful run of `chat`. -/
theorem claim3_chat_success_witness :
    chat [] "Test message" (fun _ => .ok ⟨some "Test response"⟩) false none none =
      ⟨[userMsg "Test message", assistantMsg (pyOrEmpty (some "Test response"))],
       some (save_history
         [userMsg "Test message", assistantMsg (pyOrEmpty (some "Test response"))]),
       .ok (pyOrEmpty (some "Test response"))⟩ :=
  claim3_chat_success [] "Test message" (fun _ => .ok ⟨some "Test response"⟩)
    ⟨some "Test response"⟩ false rfl

/-- Claim C4: a successful `chat_stream message` returns the concatenation of
the stream's fragments in arrival order and appends, after the user message,
an assistant entry with exactly that concatenated text, then persists the
transcript. -/
theorem claim4_chat_stream_success (hist : List Message) (message : String)
    (create : List Message → Except PyExn (List (Option String) × Option PyExn))
    (chunks : List (Option String)) (sp : Bool)
    (h : create (hist ++ [userMsg message]) = .ok (chunks, none)) :
    chat_stream hist message create sp [] none =
      ⟨hist ++ [userMsg message, assistantMsg (concatFragments chunks)],
       some (save_history
         (hist ++ [userMsg message, assistantMsg (concatFragments chunks)])),
       .ok (concatFragments chunks)⟩ := by
  simp [chat_stream, chat_streamRaw, h, streamLoop_noPrintFail,
    String.empty_append, wrapTurn, wrapResult]

/-- Witness for C4: fragments `["Hi ", "there"]` yield reply `"Hi there"`. -/
theorem claim4_chat_stream_success_witness :
    chat_stream [] "Hello" (fun _ => .ok ([some "Hi ", some "there"], none))
        false [] none =
      ⟨[userMsg "Hello", assistantMsg (concatFragments [some "Hi ", some "there"])],
       some (save_history
         [userMsg "Hello", assistantMsg (concatFragments [some "Hi ", some "there"])]),
       .ok (concatFragments [some "Hi ", some "there"])⟩ :=
  claim4_chat_stream_success [] "Hello"
    (fun _ => .ok ([some "Hi ", some "there"], none)) [some "Hi ", some "there"]
    false rfl

/-- Claim C5: saving any transcript — every role and content string,
multi-byte text included, since `ensure_ascii=False` keeps strings verbatim —
and reading the persisted JSON back yields the identical ordered message
list. -/
theorem claim5_save_load_roundtrip (l : List Message) :
    decodeHistory (save_history l) = some l :=
  mapM_decodeMsg_encodeMsg l

/-- Claim C6: constructing over a non-existent transcript path fails with
`FileNotFoundError`, whatever the credential configuration, and the action
trace is empty: no remote client is created and no remote call is made. -/
theorem claim6_missing_file (model path system_prompt : String)
    (api_key envKey base_url : Option String) :
    init model path none system_prompt api_key envKey base_url =
      ([], .error (.fileNotFound ("History file not found: " ++ path))) := rfl

/-- Claim C7: when the transcript file exists (with any content) but no
credential is passed and none is in the environment, construction fails with
the missing-credential `ValueError`. -/
theorem claim7_missing_credential (model path system_prompt : String)
    (base_url : Option String) (fc : Except String J) :
    init model path (some fc) system_prompt none none base_url =
      ([], .error (.missingKey
        "API key must be provided either through parameter or OPENAI_API_KEY environment variable")) := rfl

/-- Claim C8 counterexample: the file content `42` is valid JSON but not a
list of messages (`decodeHistory` rejects it), yet construction succeeds —
`_load_history` assigns `json.load`'s value without any shape validation, so
loading does not fail as the claim states. -/
theorem claim8_counterexample :
    init "gpt-3.5-turbo" "history.json" (some (.ok (J.num 42)))
        "You are a helpful assistant." (some "test_key") none none
      = ([ClientAction.createClient "test_key" none],
         .ok ⟨"gpt-3.5-turbo", "history.json", "test_key", J.num 42⟩)
    ∧ decodeHistory (J.num 42) = none :=
  ⟨rfl, rfl⟩

/-- Claim C8 as amended: content whose text is not valid JSON makes loading
(and hence construction) fail with the parse error, never silently recovered;
content that is valid JSON is loaded verbatim with no shape validation, so a
JSON value that is not a list of messages does not fail. -/
theorem claim8_amended (model path system_prompt k : String)
    (base_url : Option String) :
    (∀ m : String,
      init model path (some (.error m)) system_prompt none (some k) base_url =
        ([], .error (.parseError m)))
    ∧ (∀ j : J,
      init model path (some (.ok j)) system_prompt none (some k) base_url =
        ([ClientAction.createClient k
            (if pyTruthyStr base_url then base_url else none)],
         .ok ⟨model, path, k, j⟩)) :=
  ⟨fun _ => rfl, fun _ => rfl⟩

/-- Claim C9: with a non-existent file and no credential anywhere, the file
existence check (source line 26) runs before credential resolution (line 29),
so the failure is the file-not-found error, not the missing-credential one. -/
theorem claim9_file_check_first (model path system_prompt : String)
    (base_url : Option String) :
    init model path none system_prompt none none base_url =
      ([], .error (.fileNotFound ("History file not found: " ++ path))) := rfl

/-- Claim C10: every error escaping `chat` or `chat_stream` — from the remote
call, from a `print` to the console sink, or from `_save_history` — is the
decorator's `ConnectionError`, its message extending the fixed context text. -/
theorem claim10_only_connection_errors (hist : List Message) (message : String)
    (createNS : List Message → Except PyExn NonStreamResp)
    (createS : List Message → Except PyExn (List (Option String) × Option PyExn))
    (sp : Bool) (pf sf : Option PyExn) (pfs : List (Option PyExn)) :
    (∀ e, (chat hist message createNS sp pf sf).result = .error e →
      ∃ m, e = .connectionError ("Error communicating with OpenAI: " ++ m))
    ∧ (∀ e, (chat_stream hist message createS sp pfs sf).result = .error e →
      ∃ m, e = .connectionError ("Error communicating with OpenAI: " ++ m)) :=
  ⟨fun e he => wrapTurn_error _ e he, fun e he => wrapTurn_error _ e he⟩

/-- Witness for C10 at a concrete run whose save step raises `IOError`. -/
theorem claim10_only_connection_errors_witness :
    ∃ m, PyExn.connectionError ("Error communicating with OpenAI: " ++ pyStr (.exn "disk full"))
      = PyExn.connectionError ("Error communicating with OpenAI: " ++ m) :=
  (claim10_only_connection_errors [] "Hello" (fun _ => .ok ⟨some "Hi"⟩)
      (fun _ => .ok ([], none)) false none (some (.exn "disk full")) []).1
    (.connectionError ("Error communicating with OpenAI: " ++ pyStr (.exn "disk full"))) rfl
